import Mathlib

/-!
Verification development for the SpeedAF carrier client
(`src/speedaf_api.py`, `src/main.py`).

The Python code is shallowly embedded: each relevant function becomes an
executable Lean definition that mirrors the source line by line.  The HTTP
library, the codec module `tool.py` (not part of the repository's `src/`)
and `json.loads` are modelled as an explicit environment (`Env`) of oracle
functions, since `speedaf_api.py` only calls them.  Python exceptions are
modelled by `PyExc` values carrying the class information that the
`except` clauses of `_make_request` dispatch on.
-/

namespace Speedaf

/-- JSON-like Python values as they appear in payloads and responses.
Numbers are split into `int` and `num` (float, modelled as a rational). -/
inductive Json where
  | null
  | bool (b : Bool)
  | int (n : Int)
  | num (q : ℚ)
  | str (s : String)
  | arr (elems : List Json)
  | obj (fields : List (String × Json))

/-- Python truthiness (`bool(x)`) of a JSON-like value:
`None`, `False`, `0`, `0.0`, `""`, `[]` and the empty dict are falsy. -/
def pyTruthy : Json → Bool
  | .null => false
  | .bool b => b
  | .int n => n != 0
  | .num q => q != 0
  | .str s => s != ""
  | .arr l => !l.isEmpty
  | .obj l => !l.isEmpty

/-- `dict.get(k)` on a JSON object, returning `null` (Python `None`) when the
key is absent.  A JSON object decoded by `json.loads` keeps the last of any
duplicate keys, hence the lookup of the last occurrence.  On a non-object
this returns `null`; the raising behaviour of attribute lookup on non-dicts
is handled separately in `pyGet`. -/
def jsonGet (j : Json) (k : String) : Json :=
  match j with
  | .obj kvs => ((kvs.reverse.find? (fun p => p.1 == k)).map (fun p => p.2)).getD .null
  | _ => .null

/-- A raised Python exception, as far as the `except` clauses of
`SpeedAFAPI._make_request` can observe it: its message, whether it is a
`requests.exceptions.RequestException`, whether it is a
`json.JSONDecodeError`, and (for the business-failure `Exception` raised at
line 60 of `speedaf_api.py`) the outer response it embeds in its message. -/
structure PyExc where
  msg : String
  isRequestException : Bool
  isJsonDecodeError : Bool
  payload : Option Json

/-- `result.get(k)`: field lookup on the parsed outer response.  On a
non-dict (e.g. the outer JSON was an array) Python raises an
`AttributeError`, which none of the `except` clauses catches. -/
def pyGet (j : Json) (k : String) : Except PyExc Json :=
  match j with
  | .obj _ => .ok (jsonGet j k)
  | _ => .error ⟨"AttributeError: get", false, false, none⟩

/-- Outcome of one `requests.post` call: either the library raised a
`RequestException` (connection error, timeout, ...) or an HTTP response
came back, carrying its status code and the outcome of `response.json()`. -/
inductive PostOutcome where
  | raise (msg : String)
  | response (status : Nat) (parse : Except String Json)

/-- The external collaborators of `_make_request`.  `attempts n` is the
outcome the transport would give to the `n`-th HTTP post of the call (the
code only ever issues attempt `0`).  `encrypt` is `tool.triple_des_encrypt`
(payload and timestamp to ciphertext text), `decryptDecode` is
`tool.triple_des_decrypt` followed by `bytes.decode()`, and `jsonLoads` is
`json.loads` on the decrypted text.  `tool.py` is not part of `src/`, so
these are oracle parameters of the embedding. -/
structure Env where
  attempts : Nat → PostOutcome
  encrypt : Json → String → String
  decryptDecode : Json → Except String String
  jsonLoads : String → Except String Json

/-- The plain `Exception` raised at line 60 of `speedaf_api.py`
(`"API调用失败: ..."` with the outer response interpolated).  It is neither a
`RequestException` nor a `json.JSONDecodeError`, so the two `except`
clauses let it propagate. -/
def carrierExc (result : Json) : PyExc :=
  ⟨"API调用失败", false, false, some result⟩

/-- The body of the `try` block of `_make_request` (lines 50-60 of
`speedaf_api.py`): post, `raise_for_status`, `response.json()`, envelope
check, decrypt, decode, `json.loads`.  Returns the value returned or
the exception raised, paired with whether `triple_des_decrypt` was invoked.

`raise_for_status` raises `requests.exceptions.HTTPError` (a
`RequestException`) exactly for status codes 400-599.  `response.json()`
raises `requests.exceptions.JSONDecodeError` on unparsable bodies, which
(requests >= 2.27) subclasses both `json.JSONDecodeError` and
`requests.exceptions.InvalidJSONError`, the latter being a
`RequestException` — hence both flags are set on that exception. -/
def tryBody (env : Env) : Except PyExc Json × Bool :=
  match env.attempts 0 with
  | .raise msg => (.error ⟨msg, true, false, none⟩, false)
  | .response status parse =>
    if 400 ≤ status ∧ status < 600 then
      (.error ⟨"HTTPError: status " ++ toString status, true, false, none⟩, false)
    else
      match parse with
      | .error msg => (.error ⟨msg, true, true, none⟩, false)
      | .ok result =>
        match pyGet result "success" with
        | .error e => (.error e, false)
        | .ok s =>
          if pyTruthy s then
            match pyGet result "data" with
            | .error e => (.error e, false)
            | .ok d =>
              if pyTruthy d then
                match env.decryptDecode d with
                | .error m => (.error ⟨m, false, false, none⟩, true)
                | .ok text =>
                  match env.jsonLoads text with
                  | .error m => (.error ⟨m, false, true, none⟩, true)
                  | .ok j => (.ok j, true)
              else (.error (carrierExc result), false)
          else (.error (carrierExc result), false)

/-- Final outcome of a call, after the `except` clauses of `_make_request`
ran.  `transportError` is the re-raised `Exception` `"网络请求失败: ..."`
(line 63), `protocolError` the re-raised `"响应数据解析失败: ..."` (line 65),
`carrierError` the propagated business-failure `Exception` of line 60
carrying the outer response, and `pythonError` any other uncaught
exception (e.g. a codec failure inside `triple_des_decrypt`). -/
inductive ApiOutcome where
  | success (result : Json)
  | carrierError (outer : Json)
  | transportError (msg : String)
  | protocolError (msg : String)
  | pythonError (msg : String)

/-- The two `except` clauses of `_make_request`, in source order:
`except requests.exceptions.RequestException` first (line 62), then
`except json.JSONDecodeError` (line 64); anything else propagates. -/
def dispatch : Except PyExc Json → ApiOutcome
  | .ok j => .success j
  | .error e =>
    if e.isRequestException then .transportError ("网络请求失败: " ++ e.msg)
    else if e.isJsonDecodeError then .protocolError ("响应数据解析失败: " ++ e.msg)
    else
      match e.payload with
      | some outer => .carrierError outer
      | none => .pythonError e.msg

/-- Python `int(x)` on a real value: truncation toward zero. -/
def pyInt (q : ℚ) : ℤ := if 0 ≤ q then ⌊q⌋ else ⌈q⌉

/-- Line 41 of `speedaf_api.py`: `int((time.time() + 0.5) * 1000)`, where
`t` is the value returned by `time.time()` (float arithmetic modelled
exactly over the rationals). -/
def timelineOf (t : ℚ) : ℤ := pyInt ((t + 1 / 2) * 1000)

/-- The HTTP request assembled by `_make_request`: method, full URL,
endpoint, body, headers, plus the two values it fed to the
signing/encryption step (`payloadGiven` and `signedTimestamp`, the
arguments of `triple_des_encrypt`). -/
structure SentRequest where
  method : String
  url : String
  endpoint : String
  body : String
  headers : List (String × String)
  payloadGiven : Json
  signedTimestamp : String

/-- Everything observable about one `_make_request` call: the request it
sent, its outcome, whether decryption of the response was attempted, and
how many HTTP posts it issued. -/
structure CallResult where
  request : SentRequest
  outcome : ApiOutcome
  decryptAttempted : Bool
  httpAttempts : Nat

/-- The `SpeedAFAPI` client object: the three credentials set by
`__init__` plus the headers dict it builds. -/
structure SpeedAFAPI where
  app_code : String
  secret_key : String
  base_url : String
  headers : List (String × String)

/-- `SpeedAFAPI.__init__` (lines 16-28): stores the three credentials and
sets `headers = {'Content-Type': 'text/plain'}` (built here without brace
characters). -/
def SpeedAFAPI.init (app_code secret_key base_url : String) : SpeedAFAPI :=
  { app_code := app_code, secret_key := secret_key, base_url := base_url,
    headers := [("Content-Type", "text/plain")] }

/-- `SpeedAFAPI._make_request` (lines 30-65): compute the timestamp,
encrypt the payload with it, build the URL with `appCode` and `timestamp`
query parameters, post once, and process the response. -/
def SpeedAFAPI.make_request (self : SpeedAFAPI) (endpoint : String) (data : Json)
    (t : ℚ) (env : Env) : CallResult :=
  let timeline : String := toString (timelineOf t)
  let encrypted_data := env.encrypt data timeline
  let url := self.base_url ++ endpoint ++ "?appCode=" ++ self.app_code
      ++ "&timestamp=" ++ timeline
  let r := tryBody env
  { request := { method := "POST", url := url, endpoint := endpoint,
                 body := encrypted_data, headers := self.headers,
                 payloadGiven := data, signedTimestamp := timeline },
    outcome := dispatch r.1,
    decryptAttempted := r.2,
    httpAttempts := 1 }

/-- `SpeedAFAPI.create_order` (lines 67-105).  The methods never assign to
`self`, so each is embedded as returning the unchanged client next to the
call result. -/
def SpeedAFAPI.create_order (self : SpeedAFAPI) (order_data : Json)
    (t : ℚ) (env : Env) : SpeedAFAPI × CallResult :=
  (self, self.make_request "/open-api/express/order/createOrder" order_data t env)

/-- `SpeedAFAPI.query_track` (lines 107-122): payload
`{"mailNoList": mail_no_list}` (object built without brace characters). -/
def SpeedAFAPI.query_track (self : SpeedAFAPI) (mail_no_list : List String)
    (t : ℚ) (env : Env) : SpeedAFAPI × CallResult :=
  (self, self.make_request "/open-api/express/track/query"
    (Json.obj [("mailNoList", Json.arr (mail_no_list.map Json.str))]) t env)

/-- `SpeedAFAPI.cancel_order` (lines 124-150): the payload is a one-element
array holding the record with keys `customerCode`, `billCode`,
`cancelReason`. -/
def SpeedAFAPI.cancel_order (self : SpeedAFAPI)
    (customer_code bill_code cancel_reason : String)
    (t : ℚ) (env : Env) : SpeedAFAPI × CallResult :=
  (self, self.make_request "/open-api/express/order/cancelOrder"
    (Json.arr [Json.obj [("customerCode", Json.str customer_code),
                         ("billCode", Json.str bill_code),
                         ("cancelReason", Json.str cancel_reason)]]) t env)

/-- `SpeedAFAPI.update_order` (lines 152-196): the payload is the
one-element array `[order_data]`. -/
def SpeedAFAPI.update_order (self : SpeedAFAPI) (order_data : Json)
    (t : ℚ) (env : Env) : SpeedAFAPI × CallResult :=
  (self, self.make_request "/open-api/express/order/updateOrder"
    (Json.arr [order_data]) t env)

/-- One public operation of the client, for quantifying over "every
subsequent operation". -/
inductive ClientOp where
  | createOrder (order_data : Json)
  | queryTrack (mail_no_list : List String)
  | cancelOrder (customer_code bill_code cancel_reason : String)
  | updateOrder (order_data : Json)

/-- Run one operation against a client. -/
def runOp (c : SpeedAFAPI) (op : ClientOp) (t : ℚ) (env : Env) :
    SpeedAFAPI × CallResult :=
  match op with
  | .createOrder d => c.create_order d t env
  | .queryTrack l => c.query_track l t env
  | .cancelOrder cc bc cr => c.cancel_order cc bc cr t env
  | .updateOrder d => c.update_order d t env

/-- `main.py` line 31: `os.getenv("SPEEDAF_APP_CODE", "11111111")`.  The
process environment is a partial map from variable names to strings. -/
def APP_CODE (getenv : String → Option String) : String :=
  (getenv "SPEEDAF_APP_CODE").getD "11111111"

/-- `main.py` line 32: `os.getenv("SPEEDAF_SECRET_KEY", "uYMGr8eU")`. -/
def SECRET_KEY (getenv : String → Option String) : String :=
  (getenv "SPEEDAF_SECRET_KEY").getD "uYMGr8eU"

/-- `main.py` line 33: `os.getenv("SPEEDAF_BASE_URL", "https://uat-api.speedaf.com")`. -/
def BASE_URL (getenv : String → Option String) : String :=
  (getenv "SPEEDAF_BASE_URL").getD "https://uat-api.speedaf.com"

/-- `main.py` lines 35-39: the process-wide client built from the three
environment-sourced settings. -/
def speedaf_api (getenv : String → Option String) : SpeedAFAPI :=
  SpeedAFAPI.init (APP_CODE getenv) (SECRET_KEY getenv) (BASE_URL getenv)

/-- Characterization of when `_make_request` reaches the decryption step:
the first HTTP attempt returned a response, its status is not in 400-599,
its body parsed to a JSON object, and both `success` and `data` fields are
truthy. -/
def outerAccepts (env : Env) : Bool :=
  match env.attempts 0 with
  | .raise _ => false
  | .response status parse =>
    if 400 ≤ status ∧ status < 600 then false
    else
      match parse with
      | .error _ => false
      | .ok result =>
        match result with
        | .obj _ => pyTruthy (jsonGet result "success") && pyTruthy (jsonGet result "data")
        | _ => false

/-! ## Symmetric cipher codec

Modelled from the spec: the module `tool.py` holding `triple_des_encrypt`
and `triple_des_decrypt` is not under `src/` (only its callers in
`speedaf_api.py` are), so the byte-level codec layer of spec section 4.1 is
modelled here from the spec's words: a legacy triple-block-cipher mode
operating on 8-byte blocks with PKCS-style block padding, a key derived
from the configured secret by deterministic truncation/zero-padding to the
cipher's fixed key length (24 bytes, three 8-byte subkeys), and a hex text
encoding of the ciphertext.  The carrier-mandated per-block permutation
itself is not specified beyond being an invertible, length-preserving
8-byte block cipher, so it is a parameter (`BlockCipher`) carrying exactly
those properties; padding, blocking, keying and encoding are concrete. -/

/-- A byte. -/
abbrev Byte := Fin 256

/-- An invertible block cipher on 8-byte blocks: the encryption and
decryption directions, length preservation, and mutual inversion. -/
structure BlockCipher where
  enc : List Byte → List Byte
  dec : List Byte → List Byte
  enc_length : ∀ b : List Byte, b.length = 8 → (enc b).length = 8
  dec_length : ∀ b : List Byte, b.length = 8 → (dec b).length = 8
  dec_enc : ∀ b : List Byte, b.length = 8 → dec (enc b) = b
  enc_dec : ∀ b : List Byte, b.length = 8 → enc (dec b) = b

/-- Modelled from the spec: deterministic key derivation — truncate the
secret's bytes to the cipher's fixed 24-byte key length, zero-padding a
shorter secret ("pad or truncate deterministically"). -/
def deriveKey (secret : List Byte) : List Byte :=
  secret.take 24 ++ List.replicate (24 - secret.length) (0 : Byte)

/-- Triple application in EDE order of the three keyed block permutations:
encrypt with the first subkey's cipher, decrypt with the second, encrypt
with the third. -/
def tripleEnc (c1 c2 c3 : BlockCipher) (b : List Byte) : List Byte :=
  c3.enc (c2.dec (c1.enc b))

/-- Inverse of `tripleEnc`: decrypt with the third subkey's cipher,
encrypt with the second, decrypt with the first. -/
def tripleDec (c1 c2 c3 : BlockCipher) (b : List Byte) : List Byte :=
  c1.dec (c2.enc (c3.dec b))

/-- Modelled from the spec: PKCS-style block padding for block size 8 —
append `n` bytes of value `n`, where `n = 8 - len mod 8` (so the empty
string gets a full block of `0x08` bytes). -/
def pad (xs : List Byte) : List Byte :=
  xs ++ List.replicate (8 - xs.length % 8) ⟨8 - xs.length % 8, by omega⟩

/-- Modelled from the spec: PKCS-style unpadding — read the final byte
`n`, require `1 ≤ n ≤ 8`, that at least `n` bytes are present, and that
the last `n` bytes all equal `n`; strip them.  `none` signals the
`CodecError` of invalid trailing padding ("must not silently truncate
garbage"). -/
def unpad (xs : List Byte) : Option (List Byte) :=
  match xs.getLast? with
  | none => none
  | some b =>
    if 1 ≤ b.val ∧ b.val ≤ 8 ∧ b.val ≤ xs.length
        ∧ (xs.drop (xs.length - b.val)).all (fun c => decide (c = b))
    then some (xs.take (xs.length - b.val))
    else none

/-- Apply `f` to consecutive 8-byte blocks, fuelled recursion (the fuel is
instantiated with the list length, which always suffices). -/
def mapBlocksGo (f : List Byte → List Byte) : Nat → List Byte → List Byte
  | 0, _ => []
  | _ + 1, [] => []
  | fuel + 1, a :: xs =>
    f ((a :: xs).take 8) ++ mapBlocksGo f fuel ((a :: xs).drop 8)

/-- Apply a block operation to each consecutive 8-byte block. -/
def mapBlocks (f : List Byte → List Byte) (xs : List Byte) : List Byte :=
  mapBlocksGo f xs.length xs

/-- Lowercase hex digit for a value below 16, computed from the ASCII
codes (48 is the code of the zero digit, 97 that of lowercase a). -/
def hexDigit (n : Nat) : Char :=
  if n < 10 then Char.ofNat (48 + n) else Char.ofNat (87 + n)

/-- Numeric value of a lowercase hex digit character, read off its ASCII
code; `none` for any other character. -/
def hexVal (c : Char) : Option (Fin 16) :=
  if h : 48 ≤ c.toNat ∧ c.toNat ≤ 57 then some ⟨c.toNat - 48, by omega⟩
  else if h : 97 ≤ c.toNat ∧ c.toNat ≤ 102 then some ⟨c.toNat - 87, by omega⟩
  else none

/-- Two lowercase hex characters per byte, high nibble first. -/
def hexChars : List Byte → List Char
  | [] => []
  | b :: bs => hexDigit (b.val / 16) :: hexDigit (b.val % 16) :: hexChars bs

/-- Modelled from the spec: the deterministic transport-safe text
encoding of the ciphertext (hex). -/
def hexEncode (xs : List Byte) : String := String.mk (hexChars xs)

/-- Parse pairs of hex characters back into bytes; `none` on odd length or
a non-hex character. -/
def hexBytes : List Char → Option (List Byte)
  | [] => some []
  | [_] => none
  | c1 :: c2 :: cs =>
    match hexVal c1, hexVal c2, hexBytes cs with
    | some h, some l, some bs =>
      some (Fin.mk (h.val * 16 + l.val)
        (by have hh := h.isLt; have hl := l.isLt; omega) :: bs)
    | _, _, _ => none

/-- Decode the transport text representation back to ciphertext bytes. -/
def hexDecode (s : String) : Option (List Byte) := hexBytes s.toList

/-- Encryption with three given keyed block permutations: pad the
plaintext to a block multiple, encrypt each 8-byte block with the triple
cipher, hex-encode the result. -/
def encryptCore (c1 c2 c3 : BlockCipher) (plaintext : List Byte) : String :=
  hexEncode (mapBlocks (tripleEnc c1 c2 c3) (pad plaintext))

/-- Decryption with three given keyed block permutations: decode the hex
text, fail with a `CodecError` when the ciphertext length is not a
multiple of the block size, decrypt each block, strip the padding. -/
def decryptCore (c1 c2 c3 : BlockCipher) (ciphertext : String) :
    Except String (List Byte) :=
  match hexDecode ciphertext with
  | none => .error "CodecError: ciphertext is not valid hex text"
  | some bs =>
    if bs.length % 8 = 0 then
      match unpad (mapBlocks (tripleDec c1 c2 c3) bs) with
      | none => .error "CodecError: invalid trailing padding bytes"
      | some x => .ok x
    else .error "CodecError: ciphertext length is not a multiple of the block size"

/-- Modelled from the spec: `encrypt(plaintext, key_material)` of spec
section 4.1 — derive the 24-byte key from the secret, split it into three
8-byte subkeys, pad the plaintext to a block multiple, encrypt each
8-byte block with the triple cipher, and hex-encode the result.
`cipherOf` maps an 8-byte subkey to its keyed block permutation. -/
def triple_des_encrypt (cipherOf : List Byte → BlockCipher)
    (secret : List Byte) (plaintext : List Byte) : String :=
  encryptCore (cipherOf ((deriveKey secret).take 8))
    (cipherOf (((deriveKey secret).drop 8).take 8))
    (cipherOf ((deriveKey secret).drop 16)) plaintext

/-- Modelled from the spec: `decrypt(ciphertext, key_material)` of spec
section 4.1 — decode the hex text, fail with a `CodecError` when the
ciphertext length is not a multiple of the block size, decrypt each block
with the inverse triple cipher, and strip the padding, failing when the
trailing padding bytes are invalid. -/
def triple_des_decrypt (cipherOf : List Byte → BlockCipher)
    (secret : List Byte) (ciphertext : String) : Except String (List Byte) :=
  decryptCore (cipherOf ((deriveKey secret).take 8))
    (cipherOf (((deriveKey secret).drop 8).take 8))
    (cipherOf ((deriveKey secret).drop 16)) ciphertext

/-- XOR of two bytes. -/
def xorByte (x y : Byte) : Byte :=
  ⟨x.val ^^^ y.val, Nat.xor_lt_two_pow (n := 8) x.isLt y.isLt⟩

/-- A key list normalized to exactly 8 bytes (truncate or zero-pad). -/
def key8 (key : List Byte) : List Byte :=
  key.take 8 ++ List.replicate (8 - key.length) (0 : Byte)

/-- XOR with a fixed 8-byte key cancels itself: the self-inversion proof
shared by the two directions of `xorCipher`. -/
def xorCancel : ∀ (b k : List Byte), b.length ≤ k.length →
    List.zipWith xorByte (List.zipWith xorByte b k) k = b := by
  have hx : ∀ x y : Byte, xorByte (xorByte x y) y = x := by
    intro x y
    apply Fin.ext
    simp [xorByte, Nat.xor_assoc, Nat.xor_self, Nat.xor_zero]
  intro b
  induction b with
  | nil => intro k _; simp
  | cons x xs ih =>
    intro k hk
    match k with
    | [] => simp at hk
    | y :: ys =>
      simp only [List.zipWith_cons_cons, hx]
      rw [ih ys (by simpa using hk)]

/-- A concrete keyed block cipher for evaluating the codec on inputs:
XOR each of the 8 bytes with the corresponding key byte (an involution). -/
def xorCipher (key : List Byte) : BlockCipher where
  enc b := List.zipWith xorByte b (key8 key)
  dec b := List.zipWith xorByte b (key8 key)
  enc_length b hb := by simp [hb, key8]; omega
  dec_length b hb := by simp [hb, key8]; omega
  dec_enc b hb := xorCancel b (key8 key) (by simp [hb, key8]; omega)
  enc_dec b hb := xorCancel b (key8 key) (by simp [hb, key8]; omega)

/-! ## OrderBuilder (`speedaf_api.py` lines 199-355)

`build()` returns `self.order_data.copy()`, a shallow copy: top-level keys
are copied, but the `"itemList"` value is the same mutable list object as
the builder's.  To capture this the builder state is split into the
top-level dict (`top`), whose `"itemList"` entry is a reference
(`TopVal.itemsRef`) into a one-cell store, and the store itself (`items`).
A snapshot returned by `build()` shares the reference; resolving a
snapshot against the current store yields the observable mapping. -/

/-- A top-level value of `order_data`: either an immutable JSON value or
the reference to the builder's mutable item list. -/
inductive TopVal where
  | val (j : Json)
  | itemsRef

/-- Update an association list the way Python dict assignment does:
replace in place the value at an existing key, else append the new
binding. -/
def setKey {α : Type} : List (String × α) → String → α → List (String × α)
  | [], k, v => [(k, v)]
  | (k', v') :: rest, k, v =>
    if k' = k then (k, v) :: rest else (k', v') :: setKey rest k v

/-- First-occurrence lookup in an association list (keys are unique in a
Python dict). -/
def lookupKey {α : Type} : List (String × α) → String → Option α
  | [], _ => none
  | (k', v) :: rest, k => if k' = k then some v else lookupKey rest k

/-- Python's `k in dict`. -/
def containsKey {α : Type} (l : List (String × α)) (k : String) : Bool :=
  (lookupKey l k).isSome

/-- Apply a sequence of `dict.update` bindings in order. -/
def updateKeys (l : List (String × TopVal)) (kvs : List (String × TopVal)) :
    List (String × TopVal) :=
  kvs.foldl (fun acc p => setKey acc p.1 p.2) l

/-- One item dict as assembled by `OrderBuilder.add_item` (lines 282-326);
the four dimension fields are only present when the argument was not
`None`. -/
structure Item where
  goodsName : String
  goodsNameDialect : String
  goodsQTY : Int
  goodsValue : ℚ
  goodsWeight : ℚ
  goodsType : String
  battery : Int
  blInsure : Int
  dutyMoney : ℚ
  goodsId : String
  sku : String
  goodsMaterial : String
  goodsRemark : String
  goodsRule : String
  goodsUnitPrice : ℚ
  makeCountry : String
  salePath : String
  unit : String
  goodsLength : Option Int
  goodsWidth : Option Int
  goodsHigh : Option Int
  goodsVolume : Option ℚ

/-- The JSON dict an `Item` denotes, with keys in the insertion order of
`add_item`. -/
def itemJson (it : Item) : Json :=
  Json.obj
    ([("goodsName", Json.str it.goodsName),
      ("goodsNameDialect", Json.str it.goodsNameDialect),
      ("goodsQTY", Json.int it.goodsQTY),
      ("goodsValue", Json.num it.goodsValue),
      ("goodsWeight", Json.num it.goodsWeight),
      ("goodsType", Json.str it.goodsType),
      ("battery", Json.int it.battery),
      ("blInsure", Json.int it.blInsure),
      ("dutyMoney", Json.num it.dutyMoney),
      ("goodsId", Json.str it.goodsId),
      ("sku", Json.str it.sku),
      ("goodsMaterial", Json.str it.goodsMaterial),
      ("goodsRemark", Json.str it.goodsRemark),
      ("goodsRule", Json.str it.goodsRule),
      ("goodsUnitPrice", Json.num it.goodsUnitPrice),
      ("makeCountry", Json.str it.makeCountry),
      ("salePath", Json.str it.salePath),
      ("unit", Json.str it.unit)]
     ++ (match it.goodsLength with
         | some v => [("goodsLength", Json.int v)] | none => [])
     ++ (match it.goodsWidth with
         | some v => [("goodsWidth", Json.int v)] | none => [])
     ++ (match it.goodsHigh with
         | some v => [("goodsHigh", Json.int v)] | none => [])
     ++ (match it.goodsVolume with
         | some v => [("goodsVolume", Json.num v)] | none => []))

/-- The `OrderBuilder` state: the top-level `order_data` dict and the
store holding the mutable item list (present once `add_item` created
it). -/
structure OrderBuilder where
  top : List (String × TopVal)
  items : Option (List Item)

/-- `OrderBuilder.__init__` (lines 202-203): `order_data` starts empty. -/
def OrderBuilder.empty : OrderBuilder := ⟨[], none⟩

/-- `set_custom_order_no` (lines 205-208). -/
def OrderBuilder.set_custom_order_no (b : OrderBuilder)
    (custom_order_no : String) : OrderBuilder :=
  { b with top := setKey b.top "customOrderNo" (.val (.str custom_order_no)) }

/-- `set_customer_code` (lines 210-213). -/
def OrderBuilder.set_customer_code (b : OrderBuilder)
    (customer_code : String) : OrderBuilder :=
  { b with top := setKey b.top "customerCode" (.val (.str customer_code)) }

/-- `set_sender` (lines 215-238). -/
def OrderBuilder.set_sender (b : OrderBuilder)
    (name mobile address country_code company_name phone email
     province_code province_name city_code city_name
     district_code district_name post_code : String) : OrderBuilder :=
  { b with top := (updateKeys b.top
      [("sendName", .val (.str name)),
       ("sendMobile", .val (.str mobile)),
       ("sendAddress", .val (.str address)),
       ("sendCountryCode", .val (.str country_code)),
       ("sendCompanyName", .val (.str company_name)),
       ("sendPhone", .val (.str phone)),
       ("sendMail", .val (.str email)),
       ("sendProvinceCode", .val (.str province_code)),
       ("sendProvinceName", .val (.str province_name)),
       ("sendCityCode", .val (.str city_code)),
       ("sendCityName", .val (.str city_name)),
       ("sendDistrictCode", .val (.str district_code)),
       ("sendDistrictName", .val (.str district_name)),
       ("sendPostCode", .val (.str post_code))]) }

/-- `set_receiver` (lines 240-263). -/
def OrderBuilder.set_receiver (b : OrderBuilder)
    (name mobile address country_code company_name phone email
     province_code province_name city_code city_name
     district_code district_name post_code : String) : OrderBuilder :=
  { b with top := (updateKeys b.top
      [("acceptName", .val (.str name)),
       ("acceptMobile", .val (.str mobile)),
       ("acceptAddress", .val (.str address)),
       ("acceptCountryCode", .val (.str country_code)),
       ("acceptCompanyName", .val (.str company_name)),
       ("acceptPhone", .val (.str phone)),
       ("acceptEmail", .val (.str email)),
       ("acceptProvinceCode", .val (.str province_code)),
       ("acceptProvinceName", .val (.str province_name)),
       ("acceptCityCode", .val (.str city_code)),
       ("acceptCityName", .val (.str city_name)),
       ("acceptDistrictCode", .val (.str district_code)),
       ("acceptDistrictName", .val (.str district_name)),
       ("acceptPostCode", .val (.str post_code))]) }

/-- `set_parcel_info` (lines 265-280): optional fields are stored only
when not `None`. -/
def OrderBuilder.set_parcel_info (b : OrderBuilder)
    (weight : ℚ) (volume : Option ℚ) (length width height : Option Int)
    (piece : Int) : OrderBuilder :=
  let top1 := updateKeys b.top
      [("parcelWeight", .val (.num weight)), ("piece", .val (.int piece))]
  let top2 := match volume with
      | some v => setKey top1 "parcelVolume" (.val (.num v)) | none => top1
  let top3 := match length with
      | some v => setKey top2 "parcelLength" (.val (.int v)) | none => top2
  let top4 := match width with
      | some v => setKey top3 "parcelWidth" (.val (.int v)) | none => top3
  let top5 := match height with
      | some v => setKey top4 "parcelHigh" (.val (.int v)) | none => top4
  { b with top := top5 }

/-- `set_service_options` (lines 328-346). -/
def OrderBuilder.set_service_options (b : OrderBuilder)
    (delivery_type pay_method parcel_type ship_type transport_type
     platform_source : String)
    (cod_fee insure_price shipping_fee : ℚ) (remark : String) : OrderBuilder :=
  { b with top := (updateKeys b.top
      [("deliveryType", .val (.str delivery_type)),
       ("payMethod", .val (.str pay_method)),
       ("parcelType", .val (.str parcel_type)),
       ("shipType", .val (.str ship_type)),
       ("transportType", .val (.str transport_type)),
       ("platformSource", .val (.str platform_source)),
       ("codFee", .val (.num cod_fee)),
       ("insurePrice", .val (.num insure_price)),
       ("shippingFee", .val (.num shipping_fee)),
       ("remark", .val (.str remark))]) }

/-- `add_item` (lines 282-326): create the item list on first use, build
the item dict (the dialect name defaults to the goods name via
`goods_name_dialect or goods_name`), and append it in place to the shared
list. -/
def OrderBuilder.add_item (b : OrderBuilder)
    (goods_name : String) (goods_qty : Int) (goods_value goods_weight : ℚ)
    (goods_name_dialect goods_type : String) (battery bl_insure : Int)
    (duty_money : ℚ) (goods_id sku goods_material goods_remark
     goods_rule : String) (goods_unit_price : ℚ)
    (make_country sale_path unit : String)
    (goods_length goods_width goods_height : Option Int)
    (goods_volume : Option ℚ) : OrderBuilder :=
  let b1 := if containsKey b.top "itemList" then b
            else { top := setKey b.top "itemList" .itemsRef, items := some [] }
  let item : Item :=
    { goodsName := goods_name,
      goodsNameDialect := if goods_name_dialect = "" then goods_name
                          else goods_name_dialect,
      goodsQTY := goods_qty, goodsValue := goods_value,
      goodsWeight := goods_weight, goodsType := goods_type,
      battery := battery, blInsure := bl_insure, dutyMoney := duty_money,
      goodsId := goods_id, sku := sku, goodsMaterial := goods_material,
      goodsRemark := goods_remark, goodsRule := goods_rule,
      goodsUnitPrice := goods_unit_price, makeCountry := make_country,
      salePath := sale_path, unit := unit,
      goodsLength := goods_length, goodsWidth := goods_width,
      goodsHigh := goods_height, goodsVolume := goods_volume }
  { b1 with items := some (b1.items.getD [] ++ [item]) }

/-- `build` (lines 348-355): when a non-empty `"itemList"` exists, set the
top-level `"goodsQTY"` to the sum of the items' `goodsQTY` values (this
mutates `order_data`), then return a shallow copy of `order_data`.  The
result is the mutated builder and the returned snapshot, which shares the
item-list reference. -/
def OrderBuilder.build (b : OrderBuilder) :
    OrderBuilder × List (String × TopVal) :=
  let top1 :=
    if containsKey b.top "itemList" && !(b.items.getD []).isEmpty then
      setKey b.top "goodsQTY"
        (.val (.int (((b.items.getD []).map Item.goodsQTY).sum)))
    else b.top
  ({ b with top := top1 }, top1)

/-- One call to one of the six `set_*` setter methods, with its arguments. -/
inductive SetterCall where
  | customOrderNo (custom_order_no : String)
  | customerCode (customer_code : String)
  | sender (name mobile address country_code company_name phone email
      province_code province_name city_code city_name
      district_code district_name post_code : String)
  | receiver (name mobile address country_code company_name phone email
      province_code province_name city_code city_name
      district_code district_name post_code : String)
  | parcelInfo (weight : ℚ) (volume : Option ℚ)
      (length width height : Option Int) (piece : Int)
  | serviceOptions (delivery_type pay_method parcel_type ship_type
      transport_type platform_source : String)
      (cod_fee insure_price shipping_fee : ℚ) (remark : String)

/-- Apply a setter call to a builder. -/
def applySetter (s : SetterCall) (b : OrderBuilder) : OrderBuilder :=
  match s with
  | .customOrderNo v => b.set_custom_order_no v
  | .customerCode v => b.set_customer_code v
  | .sender a1 a2 a3 a4 a5 a6 a7 a8 a9 a10 a11 a12 a13 a14 =>
    b.set_sender a1 a2 a3 a4 a5 a6 a7 a8 a9 a10 a11 a12 a13 a14
  | .receiver a1 a2 a3 a4 a5 a6 a7 a8 a9 a10 a11 a12 a13 a14 =>
    b.set_receiver a1 a2 a3 a4 a5 a6 a7 a8 a9 a10 a11 a12 a13 a14
  | .parcelInfo w v l wd h p => b.set_parcel_info w v l wd h p
  | .serviceOptions a1 a2 a3 a4 a5 a6 a7 a8 a9 a10 =>
    b.set_service_options a1 a2 a3 a4 a5 a6 a7 a8 a9 a10

/-- Resolve one top-level value against the current item store. -/
def resolveTop (v : TopVal) (items : Option (List Item)) : Json :=
  match v with
  | .val j => j
  | .itemsRef => .arr ((items.getD []).map itemJson)

/-- The observable mapping a snapshot denotes, given the current state of
the shared item list. -/
def resolveSnap (snap : List (String × TopVal)) (items : Option (List Item)) :
    List (String × Json) :=
  snap.map (fun p => (p.1, resolveTop p.2 items))

/-! ## Concrete evaluation inputs -/

/-- An environment whose oracles are never consulted on the happy path
being exercised: the transport raises on every attempt. -/
def envConnFail : Env :=
  { attempts := fun _ => .raise "Connection timed out",
    encrypt := fun _ _ => "ciphertext",
    decryptDecode := fun _ => .error "unused",
    jsonLoads := fun _ => .error "unused" }

/-- A carrier business rejection: HTTP 200 whose body parses to a JSON
object with a falsy `success` and no `data`. -/
def envReject : Env :=
  { attempts := fun _ => .response 200
      (.ok (.obj [("success", .bool false), ("error", .str "code not exist")])),
    encrypt := fun _ _ => "ciphertext",
    decryptDecode := fun _ => .error "unused",
    jsonLoads := fun _ => .error "unused" }

/-- A response with the non-2xx status 300 (not followed as a redirect and
not covered by `raise_for_status`) whose body is a valid success
envelope. -/
def envStatus300 : Env :=
  { attempts := fun _ => .response 300
      (.ok (.obj [("success", .bool true), ("data", .str "ciphertext")])),
    encrypt := fun _ _ => "ciphertext",
    decryptDecode := fun _ => .ok "inner",
    jsonLoads := fun _ => .ok (.obj [("trackList", .arr [])]) }

/-- A 200 response whose body does not parse as JSON: `response.json()`
raises the requests JSON decode error. -/
def envOuterBad : Env :=
  { attempts := fun _ => .response 200
      (.error "Expecting value: line 1 column 1 (char 0)"),
    encrypt := fun _ _ => "ciphertext",
    decryptDecode := fun _ => .error "unused",
    jsonLoads := fun _ => .error "unused" }

/-- A valid success envelope whose decrypted `data` does not parse as
JSON: `json.loads` raises at the inner stage. -/
def envInnerBad : Env :=
  { attempts := fun _ => .response 200
      (.ok (.obj [("success", .bool true), ("data", .str "ciphertext")])),
    encrypt := fun _ _ => "ciphertext",
    decryptDecode := fun _ => .ok "not json",
    jsonLoads := fun _ => .error "Expecting value: line 1 column 1 (char 0)" }

/-- A fully successful exchange: success envelope, decryptable data,
inner JSON `\x7b"trackList": []\x7d`. -/
def envTrackOk : Env :=
  { attempts := fun _ => .response 200
      (.ok (.obj [("success", .bool true), ("data", .str "ciphertext")])),
    encrypt := fun _ _ => "ciphertext",
    decryptDecode := fun _ => .ok "inner",
    jsonLoads := fun _ => .ok (.obj [("trackList", .arr [])]) }

/-- A concrete item as `add_item("测试商品", 2, 190, 1.45)` builds it. -/
def item0 : Item :=
  { goodsName := "测试商品", goodsNameDialect := "测试商品", goodsQTY := 2,
    goodsValue := 190, goodsWeight := 145 / 100, goodsType := "IT02",
    battery := 0, blInsure := 0, dutyMoney := 0, goodsId := "", sku := "",
    goodsMaterial := "", goodsRemark := "", goodsRule := "",
    goodsUnitPrice := 0, makeCountry := "", salePath := "", unit := "",
    goodsLength := none, goodsWidth := none, goodsHigh := none,
    goodsVolume := none }

/-- A builder state holding one item, as reached after one `add_item`. -/
def builder0 : OrderBuilder :=
  { top := [("itemList", TopVal.itemsRef)], items := some [item0] }

/-! ## Codec lemmas and claim C1 -/

theorem mapBlocksGo_length (f : List Byte → List Byte)
    (hf : ∀ b : List Byte, b.length = 8 → (f b).length = 8) :
    ∀ (fuel : Nat) (xs : List Byte), xs.length ≤ fuel → xs.length % 8 = 0 →
      (mapBlocksGo f fuel xs).length = xs.length := by
  intro fuel
  induction fuel with
  | zero =>
    intro xs hle _
    have hx : xs = [] := List.eq_nil_of_length_eq_zero (by omega)
    subst hx; rfl
  | succ n ih =>
    intro xs hle hmod
    match xs with
    | [] => rfl
    | a :: t =>
      have hlen : (a :: t).length = t.length + 1 := rfl
      have h8 : 8 ≤ (a :: t).length := by
        rw [hlen] at hmod ⊢; omega
      have htake : ((a :: t).take 8).length = 8 := by
        rw [List.length_take]; omega
      have hdroplen : ((a :: t).drop 8).length = (a :: t).length - 8 := by
        rw [List.length_drop]
      rw [mapBlocksGo, List.length_append, hf _ htake,
        ih ((a :: t).drop 8) (by omega) (by omega)]
      omega

theorem mapBlocksGo_cancel (f g : List Byte → List Byte)
    (hf : ∀ b : List Byte, b.length = 8 → (f b).length = 8)
    (hgf : ∀ b : List Byte, b.length = 8 → g (f b) = b) :
    ∀ (fuel1 fuel2 : Nat) (xs : List Byte),
      xs.length ≤ fuel1 → xs.length ≤ fuel2 → xs.length % 8 = 0 →
      mapBlocksGo g fuel2 (mapBlocksGo f fuel1 xs) = xs := by
  intro fuel1
  induction fuel1 with
  | zero =>
    intro fuel2 xs hle _ _
    have hx : xs = [] := List.eq_nil_of_length_eq_zero (by omega)
    subst hx
    match fuel2 with
    | 0 => rfl
    | _ + 1 => rfl
  | succ n ih =>
    intro fuel2 xs hle1 hle2 hmod
    match xs with
    | [] =>
      match fuel2 with
      | 0 => rfl
      | _ + 1 => rfl
    | a :: t =>
      have h8 : 8 ≤ (a :: t).length := by
        have : (a :: t).length = t.length + 1 := rfl
        omega
      have htake : ((a :: t).take 8).length = 8 := by
        rw [List.length_take]; omega
      have hdroplen : ((a :: t).drop 8).length = (a :: t).length - 8 :=
        List.length_drop ..
      have hflen : (f ((a :: t).take 8)).length = 8 := hf _ htake
      match fuel2, hle2 with
      | m + 1, hle2 =>
        rw [mapBlocksGo]
        match hft : f ((a :: t).take 8), hflen with
        | c :: cs, hflen =>
          rw [List.cons_append, mapBlocksGo]
          simp only [← List.cons_append]
          rw [List.take_left' hflen, List.drop_left' hflen, ← hft, hgf _ htake,
            ih m ((a :: t).drop 8) (by omega) (by omega) (by omega),
            List.take_append_drop]

theorem pad_length_mod (xs : List Byte) : (pad xs).length % 8 = 0 := by
  show (xs ++ List.replicate (8 - xs.length % 8) _).length % 8 = 0
  rw [List.length_append, List.length_replicate]
  omega

theorem getLast?_replicate_of_pos (k : Nat) (b : Byte) (hk : 1 ≤ k) :
    (List.replicate k b).getLast? = some b := by
  match k, hk with
  | j + 1, _ =>
    rw [List.replicate_succ']
    exact List.getLast?_concat ..

theorem unpad_append_replicate (xs : List Byte) (n : Nat)
    (h1 : 1 ≤ n) (h8 : n ≤ 8) (hb : n < 256) :
    unpad (xs ++ List.replicate n (⟨n, hb⟩ : Byte)) = some xs := by
  have hlen : (xs ++ List.replicate n (⟨n, hb⟩ : Byte)).length = xs.length + n := by
    rw [List.length_append, List.length_replicate]
  have hlast : (xs ++ List.replicate n (⟨n, hb⟩ : Byte)).getLast?
      = some (⟨n, hb⟩ : Byte) := by
    rw [List.getLast?_append, getLast?_replicate_of_pos n _ h1]
    rfl
  have hsub : (xs ++ List.replicate n (⟨n, hb⟩ : Byte)).length - n = xs.length := by
    rw [hlen]; omega
  have hdrop : (xs ++ List.replicate n (⟨n, hb⟩ : Byte)).drop
      ((xs ++ List.replicate n (⟨n, hb⟩ : Byte)).length - n)
      = List.replicate n (⟨n, hb⟩ : Byte) := by
    rw [hsub]; exact List.drop_left' rfl
  have htake : (xs ++ List.replicate n (⟨n, hb⟩ : Byte)).take
      ((xs ++ List.replicate n (⟨n, hb⟩ : Byte)).length - n) = xs := by
    rw [hsub]; exact List.take_left' rfl
  simp only [unpad, hlast]
  rw [if_pos]
  · rw [htake]
  · refine ⟨h1, h8, by rw [hlen]; omega, ?_⟩
    rw [hdrop]
    simp [List.all_eq_true, List.mem_replicate]

theorem unpad_pad (xs : List Byte) : unpad (pad xs) = some xs := by
  have hr : xs.length % 8 < 8 := Nat.mod_lt _ (by omega)
  exact unpad_append_replicate xs (8 - xs.length % 8) (by omega) (by omega) (by omega)

theorem hexVal_hexDigit (n : Fin 16) : hexVal (hexDigit n.val) = some n := by
  revert n
  decide

theorem hexBytes_hexChars (xs : List Byte) : hexBytes (hexChars xs) = some xs := by
  induction xs with
  | nil => rfl
  | cons b bs ih =>
    have hhi : b.val / 16 < 16 := by have := b.isLt; omega
    have hlo : b.val % 16 < 16 := by omega
    have e1 : hexVal (hexDigit (b.val / 16)) = some ⟨b.val / 16, hhi⟩ :=
      hexVal_hexDigit ⟨b.val / 16, hhi⟩
    have e2 : hexVal (hexDigit (b.val % 16)) = some ⟨b.val % 16, hlo⟩ :=
      hexVal_hexDigit ⟨b.val % 16, hlo⟩
    simp only [hexChars, hexBytes, e1, e2, ih]
    refine congrArg some ?_
    have hval : b.val / 16 * 16 + b.val % 16 = b.val := by omega
    congr 1
    exact Fin.ext hval

theorem hexDecode_hexEncode (xs : List Byte) : hexDecode (hexEncode xs) = some xs :=
  hexBytes_hexChars xs

/-- C1: for every byte string `x` — including the empty string and
strings whose length is not a multiple of the 8-byte block size — and
every keyed instantiation of the carrier's invertible 8-byte block
cipher, decrypting the encryption of `x` with the same key material
returns exactly `x`. -/
theorem coreRoundtrip (c1 c2 c3 : BlockCipher) (x : List Byte) :
    decryptCore c1 c2 c3 (encryptCore c1 c2 c3 x) = Except.ok x := by
  have hencLen : ∀ b : List Byte, b.length = 8 →
      (tripleEnc c1 c2 c3 b).length = 8 := by
    intro b hb
    exact c3.enc_length _ (c2.dec_length _ (c1.enc_length _ hb))
  have hcancel : ∀ b : List Byte, b.length = 8 →
      tripleDec c1 c2 c3 (tripleEnc c1 c2 c3 b) = b := by
    intro b hb
    rw [tripleEnc, tripleDec,
      c3.dec_enc _ (c2.dec_length _ (c1.enc_length _ hb)),
      c2.enc_dec _ (c1.enc_length _ hb), c1.dec_enc _ hb]
  have hlen : (mapBlocks (tripleEnc c1 c2 c3) (pad x)).length = (pad x).length :=
    mapBlocksGo_length _ hencLen _ _ (Nat.le_refl _) (pad_length_mod x)
  have hmod : (mapBlocks (tripleEnc c1 c2 c3) (pad x)).length % 8 = 0 := by
    rw [hlen]; exact pad_length_mod x
  have hmb : mapBlocks (tripleDec c1 c2 c3) (mapBlocks (tripleEnc c1 c2 c3) (pad x))
      = pad x :=
    mapBlocksGo_cancel _ _ hencLen hcancel (pad x).length
      (mapBlocks (tripleEnc c1 c2 c3) (pad x)).length (pad x)
      (Nat.le_refl _) (Nat.le_of_eq hlen.symm) (pad_length_mod x)
  simp only [decryptCore, encryptCore, hexDecode_hexEncode, hmod, if_true,
    hmb, unpad_pad]

/-- C1: for every byte string `x` — including the empty string and
strings whose length is not a multiple of the 8-byte block size — and
every keyed instantiation of the carrier's invertible 8-byte block
cipher, decrypting the encryption of `x` with the same key material
returns exactly `x`. -/
theorem C1_codec_roundtrip (cipherOf : List Byte → BlockCipher)
    (secret x : List Byte) :
    triple_des_decrypt cipherOf secret (triple_des_encrypt cipherOf secret x)
      = Except.ok x :=
  coreRoundtrip (cipherOf ((deriveKey secret).take 8))
    (cipherOf (((deriveKey secret).drop 8).take 8))
    (cipherOf ((deriveKey secret).drop 16)) x

/-- C1 witness: the round trip evaluated with the concrete XOR block
cipher, the secret `uYMGr8eU`-like byte key `[117, 89]`, and the 3-byte
(non-block-aligned) plaintext `[1, 2, 3]`. -/
theorem C1_codec_roundtrip_witness :
    triple_des_decrypt xorCipher [117, 89]
        (triple_des_encrypt xorCipher [117, 89] [1, 2, 3])
      = Except.ok [1, 2, 3] :=
  C1_codec_roundtrip xorCipher [117, 89] [1, 2, 3]

/-! ## Transport client lemmas and claims C2-C9 -/

theorem tryBody_snd_eq_outerAccepts (env : Env) :
    (tryBody env).2 = outerAccepts env := by
  rw [tryBody, outerAccepts]
  cases h : env.attempts 0 with
  | raise msg => rfl
  | response status parse =>
    by_cases hst : 400 ≤ status ∧ status < 600
    · simp [hst]
    · simp only [hst, if_false]
      cases parse with
      | error m => rfl
      | ok result =>
        cases result with
        | obj kvs =>
          simp only [pyGet]
          by_cases hs : pyTruthy (jsonGet (Json.obj kvs) "success")
          · simp only [hs, if_true]
            by_cases hd : pyTruthy (jsonGet (Json.obj kvs) "data")
            · simp only [hd, if_true]
              cases hdc : env.decryptDecode (jsonGet (Json.obj kvs) "data") with
              | error m => simp [hdc]
              | ok text =>
                cases hjl : env.jsonLoads text with
                | error m => simp [hdc, hjl]
                | ok j => simp [hdc, hjl]
            · simp [hd]
          · simp [hs]
        | null => rfl
        | bool b => rfl
        | int n => rfl
        | num q => rfl
        | str s => rfl
        | arr l => rfl

/-- C2: every request issued through `_make_request` is a POST to
`base_url ++ endpoint` with exactly the query parameters `appCode` and
`timestamp`, a plain-text content type, a body equal to the
encrypted-and-encoded ciphertext, and the timestamp in the query string
is the very value handed to the signing/encryption step. -/
theorem C2_request_shape (a s b endpoint : String) (data : Json) (t : ℚ)
    (env : Env) :
    ((SpeedAFAPI.init a s b).make_request endpoint data t env).request.method
        = "POST"
    ∧ ((SpeedAFAPI.init a s b).make_request endpoint data t env).request.url
        = b ++ endpoint ++ "?appCode=" ++ a ++ "&timestamp="
          ++ ((SpeedAFAPI.init a s b).make_request endpoint data t
              env).request.signedTimestamp
    ∧ ((SpeedAFAPI.init a s b).make_request endpoint data t
          env).request.signedTimestamp = toString (timelineOf t)
    ∧ ((SpeedAFAPI.init a s b).make_request endpoint data t env).request.body
        = env.encrypt data
            (((SpeedAFAPI.init a s b).make_request endpoint data t
              env).request.signedTimestamp)
    ∧ ((SpeedAFAPI.init a s b).make_request endpoint data t env).request.headers
        = [("Content-Type", "text/plain")] :=
  ⟨rfl, rfl, rfl, rfl, rfl⟩

/-- C3: `cancel_order` and `update_order` hand the encryption step a
one-element array — for cancel the single record with keys
`customerCode`, `billCode`, `cancelReason`, for update the given order
mapping — and the transmitted body is the encryption of exactly that
array. -/
theorem C3_array_payload (a s b customer_code bill_code cancel_reason : String)
    (order_data : Json) (t : ℚ) (env : Env) :
    ((SpeedAFAPI.init a s b).cancel_order customer_code bill_code cancel_reason
        t env).2.request.payloadGiven
      = Json.arr [Json.obj [("customerCode", Json.str customer_code),
                            ("billCode", Json.str bill_code),
                            ("cancelReason", Json.str cancel_reason)]]
    ∧ ((SpeedAFAPI.init a s b).cancel_order customer_code bill_code cancel_reason
        t env).2.request.body
      = env.encrypt
          (Json.arr [Json.obj [("customerCode", Json.str customer_code),
                               ("billCode", Json.str bill_code),
                               ("cancelReason", Json.str cancel_reason)]])
          (toString (timelineOf t))
    ∧ ((SpeedAFAPI.init a s b).update_order order_data t env).2.request.payloadGiven
      = Json.arr [order_data]
    ∧ ((SpeedAFAPI.init a s b).update_order order_data t env).2.request.body
      = env.encrypt (Json.arr [order_data]) (toString (timelineOf t)) :=
  ⟨rfl, rfl, rfl, rfl⟩

/-- C4: when the outer response parses to a JSON object whose `success`
is falsy or whose `data` is falsy/absent, the call ends in the
business-failure exception carrying the full outer response and never
reaches decryption; in general, decryption is attempted exactly when the
outer envelope is accepted (`success` and `data` both truthy). -/
theorem C4_carrier_rejection (a s b endpoint : String) (data : Json) (t : ℚ)
    (env : Env) (status : Nat) (kvs : List (String × Json))
    (hresp : env.attempts 0
        = PostOutcome.response status (Except.ok (Json.obj kvs)))
    (hst : status < 400)
    (hrej : pyTruthy (jsonGet (Json.obj kvs) "success") = false
        ∨ pyTruthy (jsonGet (Json.obj kvs) "data") = false) :
    (((SpeedAFAPI.init a s b).make_request endpoint data t env).outcome
        = ApiOutcome.carrierError (Json.obj kvs)
      ∧ ((SpeedAFAPI.init a s b).make_request endpoint data t
          env).decryptAttempted = false)
    ∧ ∀ env2 : Env,
        ((SpeedAFAPI.init a s b).make_request endpoint data t
            env2).decryptAttempted = outerAccepts env2 := by
  constructor
  · have hcond : ¬(400 ≤ status ∧ status < 600) := by omega
    constructor
    · show dispatch (tryBody env).1 = ApiOutcome.carrierError (Json.obj kvs)
      rw [tryBody]
      simp only [hresp, hcond, if_false, pyGet]
      rcases hrej with h | h
      · simp [h, dispatch, carrierExc]
      · by_cases hs : pyTruthy (jsonGet (Json.obj kvs) "success")
        · simp [hs, h, dispatch, carrierExc]
        · simp [hs, dispatch, carrierExc]
    · show (tryBody env).2 = false
      rw [tryBody_snd_eq_outerAccepts, outerAccepts]
      simp only [hresp, hcond, if_false]
      rcases hrej with h | h <;> simp [h]
  · intro env2
    exact tryBody_snd_eq_outerAccepts env2

/-- C4 witness: a concrete 200 response with `success = false` and no
`data` ends in the business-failure outcome carrying the outer body, with
no decryption attempted. -/
theorem C4_carrier_rejection_witness :
    envReject.attempts 0 = PostOutcome.response 200 (Except.ok (Json.obj
        [("success", Json.bool false), ("error", Json.str "code not exist")]))
    ∧ 200 < 400
    ∧ pyTruthy (jsonGet (Json.obj [("success", Json.bool false),
        ("error", Json.str "code not exist")]) "success") = false
    ∧ ((SpeedAFAPI.init "11111111" "uYMGr8eU" "https://uat-api.speedaf.com").make_request
          "/open-api/express/order/createOrder" Json.null 0 envReject).outcome
        = ApiOutcome.carrierError (Json.obj [("success", Json.bool false),
            ("error", Json.str "code not exist")])
    ∧ ((SpeedAFAPI.init "11111111" "uYMGr8eU" "https://uat-api.speedaf.com").make_request
          "/open-api/express/order/createOrder" Json.null 0
          envReject).decryptAttempted = false :=
  ⟨rfl, by omega, rfl,
    (C4_carrier_rejection "11111111" "uYMGr8eU" "https://uat-api.speedaf.com"
      "/open-api/express/order/createOrder" Json.null 0 envReject 200 _
      rfl (by omega) (Or.inl rfl)).1.1,
    (C4_carrier_rejection "11111111" "uYMGr8eU" "https://uat-api.speedaf.com"
      "/open-api/express/order/createOrder" Json.null 0 envReject 200 _
      rfl (by omega) (Or.inl rfl)).1.2⟩

/-- C5: the timestamp sent with every call is
`int((time.time() + 0.5) * 1000)`, which for the (always nonnegative)
clock equals `floor((now_seconds + 0.5) * 1000)` in integer
milliseconds. -/
theorem C5_timestamp_formula (a s b endpoint : String) (data : Json) (t : ℚ)
    (env : Env) (ht : 0 ≤ t) :
    timelineOf t = ⌊(t + 1 / 2) * 1000⌋
    ∧ ((SpeedAFAPI.init a s b).make_request endpoint data t
        env).request.signedTimestamp = toString (⌊(t + 1 / 2) * 1000⌋ : ℤ) := by
  have hq : (0 : ℚ) ≤ (t + 1 / 2) * 1000 := by
    have h1 : (0 : ℚ) ≤ t + 1 / 2 := by linarith
    have h2 : (0 : ℚ) ≤ (1000 : ℚ) := by norm_num
    exact mul_nonneg h1 h2
  have h : timelineOf t = ⌊(t + 1 / 2) * 1000⌋ := by
    rw [timelineOf, pyInt, if_pos hq]
  exact ⟨h, by rw [show ((SpeedAFAPI.init a s b).make_request endpoint data t
      env).request.signedTimestamp = toString (timelineOf t) from rfl, h]⟩

/-- C5 witness: at clock value `t = 0` the transmitted timestamp is the
floor formula's value, `"500"`. -/
theorem C5_timestamp_formula_witness :
    (0 : ℚ) ≤ 0
    ∧ ((SpeedAFAPI.init "11111111" "uYMGr8eU" "https://uat-api.speedaf.com").make_request
          "/open-api/express/track/query" Json.null 0
          envConnFail).request.signedTimestamp
        = toString (⌊((0 : ℚ) + 1 / 2) * 1000⌋ : ℤ) :=
  ⟨le_refl 0,
    (C5_timestamp_formula "11111111" "uYMGr8eU" "https://uat-api.speedaf.com"
      "/open-api/express/track/query" Json.null 0 envConnFail (le_refl 0)).2⟩

/-- C6 counterexample: a response with the non-2xx status 300 is not an
HTTP-level failure for the code — `raise_for_status` only raises for
400-599 — so with a valid success envelope the call returns a decrypted
result instead of failing with the transport error. -/
theorem C6_counterexample_status300 :
    ((SpeedAFAPI.init "11111111" "uYMGr8eU" "https://uat-api.speedaf.com").make_request
        "/open-api/express/track/query"
        (Json.obj [("mailNoList", Json.arr [Json.str "NG123"])]) 0
        envStatus300).outcome
      = ApiOutcome.success (Json.obj [("trackList", Json.arr [])]) := by
  rfl

/-- C6 (amended): connection errors, timeouts and 4xx/5xx statuses fail
with the transport-failure exception carrying the underlying cause; every
call issues exactly one HTTP attempt, and the call's entire result
depends only on the first attempt's outcome (no retry consults a second
attempt).  Statuses outside 400-599 are not treated as failures. -/
theorem C6_transport_failure (a s b endpoint : String) (data : Json) (t : ℚ)
    (env : Env) :
    (∀ msg, env.attempts 0 = PostOutcome.raise msg →
        ((SpeedAFAPI.init a s b).make_request endpoint data t env).outcome
          = ApiOutcome.transportError ("网络请求失败: " ++ msg))
    ∧ (∀ status parse, env.attempts 0 = PostOutcome.response status parse →
        400 ≤ status → status < 600 →
        ((SpeedAFAPI.init a s b).make_request endpoint data t env).outcome
          = ApiOutcome.transportError
              ("网络请求失败: " ++ ("HTTPError: status " ++ toString status)))
    ∧ ((SpeedAFAPI.init a s b).make_request endpoint data t env).httpAttempts = 1
    ∧ (∀ env2 : Env, env2.attempts 0 = env.attempts 0 →
        env2.encrypt = env.encrypt → env2.decryptDecode = env.decryptDecode →
        env2.jsonLoads = env.jsonLoads →
        (SpeedAFAPI.init a s b).make_request endpoint data t env2
          = (SpeedAFAPI.init a s b).make_request endpoint data t env) := by
  refine ⟨?_, ?_, rfl, ?_⟩
  · intro msg h
    show dispatch (tryBody env).1 = _
    rw [tryBody]
    simp [h, dispatch]
  · intro status parse h h4 h6
    show dispatch (tryBody env).1 = _
    rw [tryBody]
    have hcond : 400 ≤ status ∧ status < 600 := ⟨h4, h6⟩
    simp [h, hcond, dispatch]
  · intro env2 h1 h2 h3 h4
    rw [SpeedAFAPI.make_request, SpeedAFAPI.make_request, tryBody, tryBody,
      h1, h2, h3, h4]

/-- C6 witness: a concrete connection failure surfaces as the transport
error, with exactly one HTTP attempt issued. -/
theorem C6_transport_failure_witness :
    envConnFail.attempts 0 = PostOutcome.raise "Connection timed out"
    ∧ ((SpeedAFAPI.init "11111111" "uYMGr8eU" "https://uat-api.speedaf.com").make_request
          "/open-api/express/order/createOrder" Json.null 0 envConnFail).outcome
        = ApiOutcome.transportError ("网络请求失败: " ++ "Connection timed out")
    ∧ ((SpeedAFAPI.init "11111111" "uYMGr8eU" "https://uat-api.speedaf.com").make_request
          "/open-api/express/order/createOrder" Json.null 0
          envConnFail).httpAttempts = 1 :=
  ⟨rfl,
    (C6_transport_failure "11111111" "uYMGr8eU" "https://uat-api.speedaf.com"
      "/open-api/express/order/createOrder" Json.null 0 envConnFail).1
      "Connection timed out" rfl,
    (C6_transport_failure "11111111" "uYMGr8eU" "https://uat-api.speedaf.com"
      "/open-api/express/order/createOrder" Json.null 0 envConnFail).2.2.1⟩

/-- C7 counterexample: a 200 response whose body does not parse as JSON
fails with the transport-failure error `"网络请求失败: ..."` rather than the
parse-failure error, because the requests library's JSON decode error
subclasses `RequestException` and the `except` clause of line 62 of
`speedaf_api.py` runs first. -/
theorem C7_counterexample_outer_parse :
    ((SpeedAFAPI.init "11111111" "uYMGr8eU" "https://uat-api.speedaf.com").make_request
        "/open-api/express/track/query" Json.null 0 envOuterBad).outcome
      = ApiOutcome.transportError
          ("网络请求失败: Expecting value: line 1 column 1 (char 0)") := by
  rfl

/-- C7 (amended): a JSON parse failure at the inner decrypted-data stage
fails with the `ProtocolError`-style exception `"响应数据解析失败: ..."`, an
error distinct from the transport, carrier and codec failures; a parse
failure at the outer envelope stage is instead absorbed by the
`RequestException` handler (requests' JSON decode error subclasses
`RequestException`) and surfaces as the transport failure. -/
theorem C7_parse_failure_errors (a s b endpoint : String) (data : Json) (t : ℚ)
    (env : Env) :
    (∀ status msg,
        env.attempts 0 = PostOutcome.response status (Except.error msg) →
        ¬(400 ≤ status ∧ status < 600) →
        ((SpeedAFAPI.init a s b).make_request endpoint data t env).outcome
          = ApiOutcome.transportError ("网络请求失败: " ++ msg))
    ∧ (∀ (status : Nat) (kvs : List (String × Json)) (text msg : String),
        env.attempts 0 = PostOutcome.response status (Except.ok (Json.obj kvs)) →
        ¬(400 ≤ status ∧ status < 600) →
        pyTruthy (jsonGet (Json.obj kvs) "success") = true →
        pyTruthy (jsonGet (Json.obj kvs) "data") = true →
        env.decryptDecode (jsonGet (Json.obj kvs) "data") = Except.ok text →
        env.jsonLoads text = Except.error msg →
        ((SpeedAFAPI.init a s b).make_request endpoint data t env).outcome
          = ApiOutcome.protocolError ("响应数据解析失败: " ++ msg)) := by
  constructor
  · intro status msg h hst
    show dispatch (tryBody env).1 = _
    rw [tryBody]
    simp [h, hst, dispatch]
  · intro status kvs text msg h hst hs hd hdc hjl
    show dispatch (tryBody env).1 = _
    rw [tryBody]
    simp [h, hst, pyGet, hs, hd, hdc, hjl, dispatch]

/-- C7 witness: a concrete success envelope whose decrypted data is not
valid JSON fails with the parse-failure error of the inner stage. -/
theorem C7_parse_failure_errors_witness :
    envInnerBad.attempts 0 = PostOutcome.response 200 (Except.ok (Json.obj
        [("success", Json.bool true), ("data", Json.str "ciphertext")]))
    ∧ ¬(400 ≤ 200 ∧ 200 < 600)
    ∧ envInnerBad.jsonLoads "not json"
        = Except.error "Expecting value: line 1 column 1 (char 0)"
    ∧ ((SpeedAFAPI.init "11111111" "uYMGr8eU" "https://uat-api.speedaf.com").make_request
          "/open-api/express/track/query" Json.null 0 envInnerBad).outcome
        = ApiOutcome.protocolError
            ("响应数据解析失败: " ++ "Expecting value: line 1 column 1 (char 0)") :=
  ⟨rfl, by omega, rfl,
    (C7_parse_failure_errors "11111111" "uYMGr8eU" "https://uat-api.speedaf.com"
      "/open-api/express/track/query" Json.null 0 envInnerBad).2 200 _ "not json"
      "Expecting value: line 1 column 1 (char 0)" rfl (by omega) rfl rfl rfl rfl⟩

/-- C8: `query_track` sends exactly the payload `mailNoList` to the track
endpoint — the call it makes is `_make_request` on that endpoint and
payload — and when the exchange succeeds it returns the decrypted result
mapping. -/
theorem C8_query_track (a s b : String) (mail_no_list : List String) (t : ℚ)
    (env : Env) :
    (((SpeedAFAPI.init a s b).query_track mail_no_list t env).2.request.endpoint
        = "/open-api/express/track/query"
    ∧ ((SpeedAFAPI.init a s b).query_track mail_no_list t env).2.request.payloadGiven
        = Json.obj [("mailNoList", Json.arr (mail_no_list.map Json.str))]
    ∧ ((SpeedAFAPI.init a s b).query_track mail_no_list t env).2
        = (SpeedAFAPI.init a s b).make_request "/open-api/express/track/query"
            (Json.obj [("mailNoList", Json.arr (mail_no_list.map Json.str))]) t env)
    ∧ ∀ (status : Nat) (kvs : List (String × Json)) (text : String) (m : Json),
        env.attempts 0 = PostOutcome.response status (Except.ok (Json.obj kvs)) →
        ¬(400 ≤ status ∧ status < 600) →
        pyTruthy (jsonGet (Json.obj kvs) "success") = true →
        pyTruthy (jsonGet (Json.obj kvs) "data") = true →
        env.decryptDecode (jsonGet (Json.obj kvs) "data") = Except.ok text →
        env.jsonLoads text = Except.ok m →
        ((SpeedAFAPI.init a s b).query_track mail_no_list t env).2.outcome
          = ApiOutcome.success m := by
  refine ⟨⟨rfl, rfl, rfl⟩, ?_⟩
  intro status kvs text m h hst hs hd hdc hjl
  show dispatch (tryBody env).1 = _
  rw [tryBody]
  simp [h, hst, pyGet, hs, hd, hdc, hjl, dispatch]

/-- C8 witness: a concrete successful exchange returns the decrypted
inner mapping. -/
theorem C8_query_track_witness :
    envTrackOk.attempts 0 = PostOutcome.response 200 (Except.ok (Json.obj
        [("success", Json.bool true), ("data", Json.str "ciphertext")]))
    ∧ ¬(400 ≤ 200 ∧ 200 < 600)
    ∧ envTrackOk.jsonLoads "inner"
        = Except.ok (Json.obj [("trackList", Json.arr [])])
    ∧ ((SpeedAFAPI.init "11111111" "uYMGr8eU" "https://uat-api.speedaf.com").query_track
          ["NG0206830525525"] 0 envTrackOk).2.outcome
        = ApiOutcome.success (Json.obj [("trackList", Json.arr [])]) :=
  ⟨rfl, by omega, rfl,
    (C8_query_track "11111111" "uYMGr8eU" "https://uat-api.speedaf.com"
      ["NG0206830525525"] 0 envTrackOk).2 200 _ "inner"
      (Json.obj [("trackList", Json.arr [])]) rfl (by omega) rfl rfl rfl rfl⟩

/-- C9: with none of the three configuration environment variables set,
the process-wide client is built with the UAT base URL and placeholder
credentials; the three settings, fixed by `__init__`, are returned
unchanged by every subsequent operation. -/
theorem C9_default_config (getenv : String → Option String)
    (h1 : getenv "SPEEDAF_APP_CODE" = none)
    (h2 : getenv "SPEEDAF_SECRET_KEY" = none)
    (h3 : getenv "SPEEDAF_BASE_URL" = none) :
    speedaf_api getenv
      = SpeedAFAPI.init "11111111" "uYMGr8eU" "https://uat-api.speedaf.com"
    ∧ ∀ (op : ClientOp) (t : ℚ) (env : Env),
        (runOp (speedaf_api getenv) op t env).1 = speedaf_api getenv := by
  constructor
  · rw [speedaf_api, APP_CODE, SECRET_KEY, BASE_URL, h1, h2, h3]
    rfl
  · intro op t env
    cases op <;> rfl

/-- C9 witness: the empty environment yields the UAT placeholder client,
and a subsequent `query_track` call leaves it unchanged. -/
theorem C9_default_config_witness :
    ((fun _ => none) : String → Option String) "SPEEDAF_APP_CODE" = none
    ∧ speedaf_api (fun _ => none)
        = SpeedAFAPI.init "11111111" "uYMGr8eU" "https://uat-api.speedaf.com"
    ∧ (runOp (speedaf_api (fun _ => none)) (ClientOp.queryTrack ["NG123"]) 0
        envConnFail).1 = speedaf_api (fun _ => none) :=
  ⟨rfl, (C9_default_config (fun _ => none) rfl rfl rfl).1,
    (C9_default_config (fun _ => none) rfl rfl rfl).2
      (ClientOp.queryTrack ["NG123"]) 0 envConnFail⟩

/-! ## OrderBuilder lemmas and claim C10 -/

theorem lookupKey_setKey_self {α : Type} (l : List (String × α)) (k : String)
    (v : α) : lookupKey (setKey l k v) k = some v := by
  induction l with
  | nil => simp [setKey, lookupKey]
  | cons p rest ih =>
    obtain ⟨k', v'⟩ := p
    by_cases h : k' = k
    · simp [setKey, h, lookupKey]
    · simp [setKey, h, lookupKey, ih]

theorem applySetter_items (s : SetterCall) (b : OrderBuilder) :
    (applySetter s b).items = b.items := by
  cases s <;> rfl

theorem foldl_applySetter_items (cs : List SetterCall) (b : OrderBuilder) :
    (cs.foldl (fun c s => applySetter s c) b).items = b.items := by
  induction cs generalizing b with
  | nil => rfl
  | cons s rest ih => rw [List.foldl_cons, ih, applySetter_items]

/-- C10: when the accumulated order data holds a non-empty `itemList`,
the mapping returned by `build()` carries a top-level `goodsQTY` equal to
the sum of the items' `goodsQTY` values; and resolving that returned
snapshot is unaffected by any later sequence of `set_*` calls on the same
builder — the setters only rebind top-level keys of the builder's own
dict, never the shared item list. -/
theorem C10_build_goodsqty (b : OrderBuilder) (l : List Item)
    (hl : b.items = some l) (hne : l ≠ [])
    (hkey : containsKey b.top "itemList" = true) :
    lookupKey (b.build).2 "goodsQTY"
        = some (TopVal.val (Json.int ((l.map Item.goodsQTY).sum)))
    ∧ ∀ cs : List SetterCall,
        resolveSnap (b.build).2
            ((cs.foldl (fun c s => applySetter s c) (b.build).1).items)
          = resolveSnap (b.build).2 b.items := by
  have hle : l.isEmpty = false := by
    cases l with
    | nil => exact absurd rfl hne
    | cons x xs => rfl
  constructor
  · have hsnap : (b.build).2 = setKey b.top "goodsQTY"
        (TopVal.val (Json.int ((l.map Item.goodsQTY).sum))) := by
      rw [OrderBuilder.build]
      simp [hl, hkey, hle]
    rw [hsnap, lookupKey_setKey_self]
  · intro cs
    rw [foldl_applySetter_items]
    rfl

/-- C10 witness: a concrete builder holding one item of quantity 2 yields
`goodsQTY = 2` in the built snapshot, and a later `set_customer_code`
call leaves the snapshot's resolution unchanged. -/
theorem C10_build_goodsqty_witness :
    builder0.items = some [item0]
    ∧ [item0] ≠ []
    ∧ containsKey builder0.top "itemList" = true
    ∧ lookupKey (builder0.build).2 "goodsQTY"
        = some (TopVal.val (Json.int (([item0].map Item.goodsQTY).sum)))
    ∧ resolveSnap (builder0.build).2
          (([SetterCall.customerCode "MA000027"].foldl
            (fun c s => applySetter s c) (builder0.build).1).items)
        = resolveSnap (builder0.build).2 builder0.items :=
  ⟨rfl, by simp, rfl,
    (C10_build_goodsqty builder0 [item0] rfl (by simp) rfl).1,
    (C10_build_goodsqty builder0 [item0] rfl (by simp) rfl).2
      [SetterCall.customerCode "MA000027"]⟩

end Speedaf
